import Mathlib

/-!
Verification of the foodie-backend domain orchestration layer.

The Rust source is embedded shallowly:
- chrono DateTime<Utc> instants are modelled as integers (seconds since the
  epoch); date_naive becomes floor division by 86400 (chrono uses the
  proleptic Gregorian day number, which for a timestamp is exactly the floor
  of seconds / 86400).
- Uuid values are opaque naturals, UserId values are strings.
- Fallible Rust functions returning Result<T, E> become Except E T.
- Async use cases with injected repository / service collaborators become
  pure functions taking the collaborator answers as arguments and returning,
  next to the domain result, the trace of collaborator calls they performed
  (an Effect list), so that frame conditions ("the store is untouched",
  "the estimator is never invoked") are statable.
- Calls to Utc::now() and Uuid::new_v4() become explicit arguments.
-/

namespace Foodie

/-- Instant in time, as in chrono DateTime<Utc>: seconds since the epoch. -/
abbrev DateTime := Int

/-- Calendar day of an instant, as in chrono date_naive(): floor of seconds by 86400. -/
def dateNaive (t : DateTime) : Int := Int.fdiv t 86400

/-- Opaque unique identifier, as in uuid::Uuid. -/
abbrev Uuid := Nat

/-- Per-user partition key, as in domain/shared/value_objects.rs UserId. -/
abbrev UserId := String

/-- domain/product/value_objects.rs ProductStatus. -/
inductive ProductStatus where
  | New
  | Opened
  | AlmostEmpty
  | Finished
deriving DecidableEq, Repr

/-- domain/product/value_objects.rs ProductLocation. -/
inductive ProductLocation where
  | Fridge
  | Pantry
  | Freezer
deriving DecidableEq, Repr

/-- domain/product/value_objects.rs ProductOutcome. -/
inductive ProductOutcome where
  | Used
  | ThrownAway
deriving DecidableEq, Repr

/-- Display impl for ProductStatus (value_objects.rs). -/
def ProductStatus.toStr : ProductStatus → String
  | .New => "new"
  | .Opened => "opened"
  | .AlmostEmpty => "almost_empty"
  | .Finished => "finished"

/-- Display impl for ProductLocation (value_objects.rs). -/
def ProductLocation.toStr : ProductLocation → String
  | .Fridge => "fridge"
  | .Pantry => "pantry"
  | .Freezer => "freezer"

/-- domain/errors.rs RepositoryError. -/
inductive RepositoryError where
  | NotFound
  | Persistence
  | Duplicated
  | DatabaseError
deriving DecidableEq, Repr

/-- domain/product/errors.rs ProductError. -/
inductive ProductError where
  | NameEmpty
  | NotFound
  | OutcomeRequiresFinishedStatus
  | IdentificationFailed
  | ScanFailed
  | Repository (e : RepositoryError)
deriving DecidableEq, Repr

/-- domain/shopping_item/errors.rs ShoppingItemError. -/
inductive ShoppingItemError where
  | NameEmpty
  | NotFound
  | AlreadyExists
  | Repository (e : RepositoryError)
deriving DecidableEq, Repr

/-- domain/suggestion/errors.rs SuggestionError. -/
inductive SuggestionError where
  | NotEnoughProducts
  | GenerationFailed
  | InvalidSuggestion
deriving DecidableEq, Repr

/-- domain/product/model.rs Product. -/
structure Product where
  id : Uuid
  user_id : UserId
  name : String
  status : ProductStatus
  location : Option ProductLocation
  quantity : Option String
  expiry_date : Option DateTime
  estimated_expiry_date : Option DateTime
  outcome : Option ProductOutcome
  created_at : DateTime
  updated_at : DateTime
deriving DecidableEq, Repr

/-- domain/product/model.rs NewProductProps. -/
structure NewProductProps where
  user_id : UserId
  name : String
  status : ProductStatus
  location : Option ProductLocation
  quantity : Option String
  expiry_date : Option DateTime
  estimated_expiry_date : Option DateTime
  outcome : Option ProductOutcome
deriving Repr

/-- Rust str::trim().is_empty() on a name: true exactly when every character
is whitespace (trimming leading and trailing whitespace leaves nothing). -/
def isBlank (s : String) : Bool := s.data.all Char.isWhitespace

/-- domain/product/model.rs Product::new. Uuid::new_v4() and Utc::now() are the
explicit arguments freshId and now. -/
def Product.new (props : NewProductProps) (freshId : Uuid) (now : DateTime) :
    Except ProductError Product :=
  if isBlank props.name then
    .error .NameEmpty
  else if props.outcome.isSome ∧ props.status ≠ .Finished then
    .error .OutcomeRequiresFinishedStatus
  else
    .ok {
      id := freshId
      user_id := props.user_id
      name := props.name
      status := props.status
      location := props.location
      quantity := props.quantity
      expiry_date := props.expiry_date
      estimated_expiry_date := props.estimated_expiry_date
      outcome := props.outcome
      created_at := now
      updated_at := now
    }

/-- domain/product/model.rs Product::from_repository (no validation). -/
def Product.from_repository (id : Uuid) (user_id : UserId) (name : String)
    (status : ProductStatus) (location : Option ProductLocation)
    (quantity : Option String) (expiry_date estimated_expiry_date : Option DateTime)
    (outcome : Option ProductOutcome) (created_at updated_at : DateTime) : Product :=
  { id, user_id, name, status, location, quantity, expiry_date,
    estimated_expiry_date, outcome, created_at, updated_at }

/-- domain/shopping_item/model.rs ShoppingItem. -/
structure ShoppingItem where
  id : Uuid
  user_id : UserId
  name : String
  product_id : Option Uuid
  is_bought : Bool
  created_at : DateTime
  updated_at : DateTime
deriving DecidableEq, Repr

/-- domain/shopping_item/model.rs ShoppingItem::new. -/
def ShoppingItem.new (user_id : UserId) (name : String) (product_id : Option Uuid)
    (freshId : Uuid) (now : DateTime) : Except ShoppingItemError ShoppingItem :=
  if isBlank name then
    .error .NameEmpty
  else
    .ok {
      id := freshId
      user_id := user_id
      name := name
      product_id := product_id
      is_bought := false
      created_at := now
      updated_at := now
    }

/-- domain/product/urgency.rs UrgencyLevel. -/
inductive UrgencyLevel where
  | Ok
  | UseSoon
  | UseToday
  | WouldntTrust
deriving DecidableEq, Repr

/-- urgency.rs EXPIRING_SOON_DAYS constant. -/
def EXPIRING_SOON_DAYS : Int := 2

/-- urgency.rs effective date selection: product.expiry_date.or(product.estimated_expiry_date). -/
def Product.effectiveDate (p : Product) : Option DateTime :=
  p.expiry_date.or p.estimated_expiry_date

/-- urgency.rs days_until_expiry. Day-granularity signed difference of the
effective date against now; none when no date. -/
def days_until_expiry (p : Product) (now : DateTime) : Option Int :=
  match p.effectiveDate with
  | none => none
  | some d => some (dateNaive d - dateNaive now)

/-- urgency.rs is_expired: effective date strictly before now, as an exact instant. -/
def is_expired (p : Product) (now : DateTime) : Bool :=
  match p.effectiveDate with
  | some d => decide (d < now)
  | none => false

/-- urgency.rs is_expiring_soon: day difference in 0..=EXPIRING_SOON_DAYS. -/
def is_expiring_soon (p : Product) (now : DateTime) : Bool :=
  match days_until_expiry p now with
  | some days => decide (0 ≤ days ∧ days ≤ EXPIRING_SOON_DAYS)
  | none => false

/-- urgency.rs get_urgency_level. -/
def get_urgency_level (p : Product) (now : DateTime) : UrgencyLevel :=
  if p.effectiveDate.isNone then
    .Ok
  else if is_expired p now then
    .WouldntTrust
  else
    match days_until_expiry p now with
    | none => .Ok
    | some days =>
      if days = 0 then .UseToday
      else if is_expiring_soon p now then .UseSoon
      else .Ok

/-- domain/suggestion/model.rs TimeRange. -/
inductive TimeRange where
  | Quick
  | Medium
  | Long
deriving DecidableEq, Repr

/-- domain/suggestion/model.rs SuggestionIngredient. -/
structure SuggestionIngredient where
  product_id : String
  product_name : String
  quantity : Option String
  is_urgent : Bool
deriving DecidableEq, Repr

/-- domain/suggestion/model.rs Suggestion. -/
structure Suggestion where
  id : String
  title : String
  description : Option String
  estimated_time : TimeRange
  ingredients : List SuggestionIngredient
  urgent_ingredients : List String
  steps : Option (List String)
  created_at : DateTime
deriving DecidableEq, Repr

/-- Trace of collaborator calls a use case performed, in execution order.
Each constructor is one method of the repository / service ports of §6. -/
inductive Effect where
  | product_get_by_id (id : Uuid) (user_id : UserId)
  | product_save (p : Product)
  | product_delete (id : Uuid) (user_id : UserId)
  | product_get_active (user_id : UserId)
  | shopping_find_by_product_id (product_id : Uuid) (user_id : UserId)
  | shopping_save (item : ShoppingItem)
  | shopping_delete_by_product_id (product_id : Uuid) (user_id : UserId)
  | estimator_call (product_name : String) (status : String) (location : Option String)
  | generator_call (products : List Product) (limit : Nat)
deriving DecidableEq, Repr

/-- Classifier: effects touching the shopping-item store (reads or writes). -/
def Effect.isShopping : Effect → Bool
  | .shopping_find_by_product_id _ _ => true
  | .shopping_save _ => true
  | .shopping_delete_by_product_id _ _ => true
  | _ => false

/-- Classifier: writes of a shopping item. -/
def Effect.isShoppingSave : Effect → Bool
  | .shopping_save _ => true
  | _ => false

/-- Classifier: writes of a product. -/
def Effect.isProductSave : Effect → Bool
  | .product_save _ => true
  | _ => false

/-- Classifier: calls into the expiry estimator capability. -/
def Effect.isEstimatorCall : Effect → Bool
  | .estimator_call _ _ _ => true
  | _ => false

/-- Classifier: calls into the suggestion generator capability. -/
def Effect.isGeneratorCall : Effect → Bool
  | .generator_call _ _ => true
  | _ => false

/-- domain/product/use_cases/update.rs UpdateProductParams. -/
structure UpdateProductParams where
  id : Uuid
  user_id : UserId
  name : String
  status : ProductStatus
  location : Option ProductLocation
  quantity : Option String
  expiry_date : Option DateTime
  estimated_expiry_date : Option DateTime
  outcome : Option ProductOutcome
deriving Repr

/-- Answers the shopping-item repository collaborator would give to the calls
the update use case can make (find_by_product_id, save, delete_by_product_id). -/
structure ShoppingRepoAnswers where
  find_by_product_id : Except RepositoryError (Option ShoppingItem)
  save : Except RepositoryError Unit
  delete_by_product_id : Except RepositoryError Unit

/-- Replacement aggregate built in application/product/update.rs lines 48-60:
id, user_id and created_at come from the existing aggregate, everything else
from the params, updated_at refreshed to now. -/
def replacementProduct (params : UpdateProductParams) (existing : Product)
    (now : DateTime) : Product :=
  Product.from_repository existing.id existing.user_id params.name params.status
    params.location params.quantity params.expiry_date params.estimated_expiry_date
    params.outcome existing.created_at now

/-- application/product/update.rs UpdateProductUseCaseImpl::execute.
get_by_id and saveProduct are what the product repository answers to the two
calls the use case makes; shop answers the shopping-item repository; the
ShoppingItem::new Uuid::new_v4()/Utc::now() become freshItemId/now.
Returns the domain result together with the trace of collaborator calls. -/
def UpdateProductUseCaseImpl.execute (params : UpdateProductParams)
    (get_by_id : Except RepositoryError Product)
    (saveProduct : Except RepositoryError Unit)
    (shop : ShoppingRepoAnswers)
    (freshItemId : Uuid) (now : DateTime) :
    Except ProductError Product × List Effect :=
  if isBlank params.name then
    (.error .NameEmpty, [])
  else if params.outcome.isSome ∧ params.status ≠ .Finished then
    (.error .OutcomeRequiresFinishedStatus, [])
  else
    match get_by_id with
    | .error .NotFound =>
      (.error .NotFound, [.product_get_by_id params.id params.user_id])
    | .error e =>
      (.error (.Repository e), [.product_get_by_id params.id params.user_id])
    | .ok existing =>
      let old_status := existing.status
      let new_status := params.status
      let updated_product := replacementProduct params existing now
      match saveProduct with
      | .error e =>
        (.error (.Repository e),
          [.product_get_by_id params.id params.user_id,
           .product_save updated_product])
      | .ok _ =>
        -- Auto-add to shopping list when transitioning to Finished;
        -- failures of the secondary step are only logged.
        let addOps : List Effect :=
          if new_status = .Finished ∧ old_status ≠ .Finished then
            .shopping_find_by_product_id existing.id params.user_id ::
              (match shop.find_by_product_id with
               | .ok none =>
                 match ShoppingItem.new params.user_id params.name
                     (some existing.id) freshItemId now with
                 | .ok item => [.shopping_save item]
                 | .error _ => []
               | _ => [])
          else []
        -- Remove from shopping list when reverting from Finished;
        -- failures are only logged.
        let removeOps : List Effect :=
          if old_status = .Finished ∧ new_status ≠ .Finished then
            [.shopping_delete_by_product_id existing.id params.user_id]
          else []
        (.ok updated_product,
          [.product_get_by_id params.id params.user_id,
           .product_save updated_product] ++ addOps ++ removeOps)

/-- domain/product/services.rs Confidence. -/
inductive Confidence where
  | High
  | Medium
  | Low
  | None
deriving DecidableEq, Repr

/-- domain/product/services.rs ExpiryEstimation. -/
structure ExpiryEstimation where
  date : Option DateTime
  confidence : Confidence
deriving Repr

/-- domain/product/use_cases/create.rs CreateProductParams (the create use case
carries no owner; the owner for the constructed aggregate is threaded as an
explicit argument of the execute embedding below). -/
structure CreateProductParams where
  name : String
  status : ProductStatus
  location : Option ProductLocation
  quantity : Option String
  expiry_date : Option DateTime
  estimated_expiry_date : Option DateTime
  outcome : Option ProductOutcome
deriving Repr

/-- Props handed to Product::new in create.rs lines 25-33 (the owner is
threaded explicitly, see CreateProductParams). -/
def CreateProductParams.toProps (params : CreateProductParams)
    (user_id : UserId) : NewProductProps :=
  { user_id := user_id, name := params.name, status := params.status,
    location := params.location, quantity := params.quantity,
    expiry_date := params.expiry_date,
    estimated_expiry_date := params.estimated_expiry_date,
    outcome := params.outcome }

/-- Product after create.rs lines 51-52 apply an estimated date: the
estimated_expiry_date is set and updated_at refreshed. -/
def estApplied (p : Product) (date : DateTime) (now2 : DateTime) : Product :=
  { p with estimated_expiry_date := some date, updated_at := now2 }

/-- application/product/create.rs CreateProductUseCaseImpl::execute.
save1 and save2 are what the repository answers to the (up to two) save calls;
estimation is what the estimator answers should it be called; now2 is the
Utc::now() refreshing updated_at before the second save. -/
def CreateProductUseCaseImpl.execute (params : CreateProductParams)
    (user_id : UserId)
    (save1 save2 : Except RepositoryError Unit)
    (estimation : ExpiryEstimation)
    (freshId : Uuid) (now now2 : DateTime) :
    Except ProductError Product × List Effect :=
  match Product.new (params.toProps user_id) freshId now with
  | .error e => (.error e, [])
  | .ok product =>
    match save1 with
    | .error e => (.error (.Repository e), [.product_save product])
    | .ok _ =>
      if product.expiry_date.isNone then
        let estEff := Effect.estimator_call product.name product.status.toStr
          (product.location.map ProductLocation.toStr)
        match estimation.date with
        | some date =>
          let product2 := estApplied product date now2
          match save2 with
          | .error e =>
            (.error (.Repository e),
              [.product_save product, estEff, .product_save product2])
          | .ok _ =>
            (.ok product2,
              [.product_save product, estEff, .product_save product2])
        | none => (.ok product, [.product_save product, estEff])
      else
        (.ok product, [.product_save product])

/-- Non-expired active products, as computed in generate.rs line 39. -/
def usableOf (products : List Product) (now : DateTime) : List Product :=
  products.filter (fun p => !is_expired p now)

/-- suggestion/generate.rs urgency_order closure: rank of an urgency level. -/
def urgency_order : UrgencyLevel → Nat
  | .UseToday => 0
  | .UseSoon => 1
  | .Ok => 2
  | .WouldntTrust => 3

/-- Comparator passed to the stable sort in generate.rs lines 46-58, as a
boolean le relation: a sorts no later than b when its urgency rank is no
greater. -/
def urgencyLe (now : DateTime) (a b : Product) : Bool :=
  decide (urgency_order (get_urgency_level a now) ≤
    urgency_order (get_urgency_level b now))

/-- List handed to the external generator: the usable products stably sorted
by urgency rank (generate.rs lines 46-58). -/
def handedOf (products : List Product) (now : DateTime) : List Product :=
  (usableOf products now).mergeSort (urgencyLe now)

/-- application/suggestion/generate.rs GenerateSuggestionsUseCaseImpl::execute.
fetch is what the product repository answers to get_active_products; generator is
the external generation capability. Rust Vec::sort_by is a stable sort, which
List.mergeSort implements. -/
def GenerateSuggestionsUseCaseImpl.execute (user_id : UserId) (limit : Nat)
    (fetch : Except RepositoryError (List Product))
    (generator : List Product → Nat → Except SuggestionError (List Suggestion))
    (now : DateTime) :
    Except SuggestionError (List Suggestion) × List Effect :=
  match fetch with
  | .error _ =>
    (.error .GenerationFailed, [.product_get_active user_id])
  | .ok products =>
    let usable := usableOf products now
    if usable.isEmpty then
      (.ok [], [.product_get_active user_id])
    else
      let sorted := usable.mergeSort (urgencyLe now)
      match generator sorted limit with
      | .error e =>
        (.error e, [.product_get_active user_id, .generator_call sorted limit])
      | .ok suggestions =>
        (.ok suggestions,
          [.product_get_active user_id, .generator_call sorted limit])

/-- In-memory product store used to settle the owner-scoping claims; the
domain trait ProductRepository::get_by_id(id, user_id) answers with the
product matching both keys (the spec §6 contract: get(id, owner)). -/
def storeGetByIdScoped (store : List Product) (id : Uuid) (user_id : UserId) :
    Except RepositoryError Product :=
  match store.find? (fun p => p.id = id ∧ p.user_id = user_id) with
  | some p => .ok p
  | none => .error .NotFound

/-- Owner-insensitive lookup: answers with the first product matching the id
alone, as the application get_by_id use case and the persistence
implementation in src actually query (no owner key). -/
def storeGetByIdUnscoped (store : List Product) (id : Uuid) :
    Except RepositoryError Product :=
  match store.find? (fun p => p.id = id) with
  | some p => .ok p
  | none => .error .NotFound

/-- application/product/get_by_id.rs GetProductByIdUseCaseImpl::execute over a
concrete store: the source calls repository.get_by_id(params.id) with the id
alone — the requesting owner is accepted in the params but never reaches the
lookup — then maps RepositoryError::NotFound to ProductError::NotFound. -/
def GetProductByIdUseCaseImpl.execute (store : List Product)
    (id : Uuid) (user_id : UserId) : Except ProductError Product :=
  match storeGetByIdUnscoped store id with
  | .error .NotFound => .error .NotFound
  | .error e => .error (.Repository e)
  | .ok p => .ok p

/-- application/product/delete.rs DeleteProductUseCaseImpl::execute over a
concrete store: verifies existence through the owner-scoped lookup
get_by_id(params.id, params.user_id), mapping NotFound, then issues the
delete whose repository answer is deleteAnswer. -/
def DeleteProductUseCaseImpl.execute (store : List Product)
    (id : Uuid) (user_id : UserId)
    (deleteAnswer : Except RepositoryError Unit) : Except ProductError Unit :=
  match storeGetByIdScoped store id user_id with
  | .error .NotFound => .error .NotFound
  | .error e => .error (.Repository e)
  | .ok _ =>
    match deleteAnswer with
    | .error e => .error (.Repository e)
    | .ok _ => .ok ()

/-! Theorems. -/

/-- Helper: a product that is not expired is never classified WouldntTrust. -/
theorem urgency_ne_wouldnttrust_of_not_expired (p : Product) (now : DateTime)
    (h : is_expired p now = false) : get_urgency_level p now ≠ .WouldntTrust := by
  unfold get_urgency_level
  cases hd : p.effectiveDate with
  | none => simp [hd]
  | some d =>
    simp only [hd, Option.isNone_some, Bool.false_eq_true, if_false, h,
      days_until_expiry, hd]
    split <;> try simp
    split <;> simp

/-- C2: the urgency classification returns Ok with no effective date,
WouldntTrust when the effective date is strictly before now as an instant,
and otherwise dispatches on the calendar-day difference: 0 is UseToday,
1 or 2 is UseSoon, 3 or more is Ok. -/
theorem urgency_classification_spec (p : Product) (now : DateTime) :
    (p.effectiveDate = none → get_urgency_level p now = .Ok) ∧
    (∀ d, p.effectiveDate = some d → d < now →
      get_urgency_level p now = .WouldntTrust) ∧
    (∀ d, p.effectiveDate = some d → ¬ d < now → dateNaive d = dateNaive now →
      get_urgency_level p now = .UseToday) ∧
    (∀ d, p.effectiveDate = some d → ¬ d < now →
      (dateNaive d - dateNaive now = 1 ∨ dateNaive d - dateNaive now = 2) →
      get_urgency_level p now = .UseSoon) ∧
    (∀ d, p.effectiveDate = some d → ¬ d < now →
      3 ≤ dateNaive d - dateNaive now →
      get_urgency_level p now = .Ok) := by
  refine ⟨?_, ?_, ?_, ?_, ?_⟩
  · intro h
    simp [get_urgency_level, h]
  · intro d h hd
    simp [get_urgency_level, is_expired, h, hd]
  · intro d h hnd heq
    have hdiff : dateNaive d - dateNaive now = 0 := by omega
    simp [get_urgency_level, is_expired, days_until_expiry, h, hnd, hdiff]
  · intro d h hnd hcase
    have hne : dateNaive d - dateNaive now ≠ 0 := by omega
    have hsoon : (0 ≤ dateNaive d - dateNaive now ∧
        dateNaive d - dateNaive now ≤ EXPIRING_SOON_DAYS) := by
      unfold EXPIRING_SOON_DAYS; omega
    simp [get_urgency_level, is_expired, is_expiring_soon, days_until_expiry,
      h, hnd, hne, hsoon]
  · intro d h hnd hge
    have hne : dateNaive d - dateNaive now ≠ 0 := by omega
    have hnsoon : ¬ (0 ≤ dateNaive d - dateNaive now ∧
        dateNaive d - dateNaive now ≤ EXPIRING_SOON_DAYS) := by
      unfold EXPIRING_SOON_DAYS; omega
    simp only [get_urgency_level, is_expired, is_expiring_soon,
      days_until_expiry, h, hnd, hne, Option.isNone_some, Bool.false_eq_true,
      if_false, decide_eq_true_eq, decide_eq_false_iff_not]
    simp [hnd, hne, EXPIRING_SOON_DAYS]
    omega

/-- Sample product with the given explicit and estimated expiry dates. -/
def sampleProduct (e ee : Option DateTime) : Product :=
  { id := 1, user_id := "user-1", name := "Milk", status := .New,
    location := none, quantity := none, expiry_date := e,
    estimated_expiry_date := ee, outcome := none,
    created_at := 0, updated_at := 0 }

/-- Witness for C2 at now = 100000 (calendar day 1): a product with no dates,
an expired one, one expiring today, in one day, and in four days. -/
theorem urgency_classification_spec_witness :
    get_urgency_level (sampleProduct none none) 100000 = .Ok ∧
    get_urgency_level (sampleProduct (some 50000) none) 100000 = .WouldntTrust ∧
    get_urgency_level (sampleProduct (some 150000) none) 100000 = .UseToday ∧
    get_urgency_level (sampleProduct (some 250000) none) 100000 = .UseSoon ∧
    get_urgency_level (sampleProduct (some 450000) none) 100000 = .Ok :=
  ⟨(urgency_classification_spec (sampleProduct none none) 100000).1 rfl,
   (urgency_classification_spec (sampleProduct (some 50000) none) 100000).2.1
     50000 rfl (by decide),
   (urgency_classification_spec (sampleProduct (some 150000) none) 100000).2.2.1
     150000 rfl (by decide) (by decide),
   (urgency_classification_spec (sampleProduct (some 250000) none) 100000).2.2.2.1
     250000 rfl (by decide) (Or.inl (by decide)),
   (urgency_classification_spec (sampleProduct (some 450000) none) 100000).2.2.2.2
     450000 rfl (by decide) (by decide)⟩

/-- C10: is_expiring_soon accepts the day-difference range 0 through
EXPIRING_SOON_DAYS = 2 inclusive; in particular for a product whose effective
date is on the current calendar day and not yet past, is_expiring_soon is
true while the classifier simultaneously claims the day as UseToday. -/
theorem is_expiring_soon_overlaps_use_today (p : Product) (now : DateTime) :
    (∀ d, p.effectiveDate = some d → dateNaive d = dateNaive now → ¬ d < now →
      is_expiring_soon p now = true ∧ get_urgency_level p now = .UseToday) ∧
    (is_expiring_soon p now = true ↔
      ∃ d, p.effectiveDate = some d ∧ 0 ≤ dateNaive d - dateNaive now ∧
        dateNaive d - dateNaive now ≤ EXPIRING_SOON_DAYS) := by
  constructor
  · intro d h heq hnd
    have hdiff : dateNaive d - dateNaive now = 0 := by omega
    constructor
    · simp [is_expiring_soon, days_until_expiry, h, hdiff, EXPIRING_SOON_DAYS]
    · simp [get_urgency_level, is_expired, days_until_expiry, h, hnd, hdiff]
  · cases h : p.effectiveDate with
    | none => simp [is_expiring_soon, days_until_expiry, h]
    | some d =>
      simp [is_expiring_soon, days_until_expiry, h]

/-- Witness for C10: expiry at 150000, now 100000 (same calendar day, not
past): is_expiring_soon holds together with the UseToday classification, and
the range characterization instantiates. -/
theorem is_expiring_soon_overlaps_use_today_witness :
    (is_expiring_soon (sampleProduct (some 150000) none) 100000 = true ∧
      get_urgency_level (sampleProduct (some 150000) none) 100000 = .UseToday) ∧
    (is_expiring_soon (sampleProduct (some 250000) none) 100000 = true ↔
      ∃ d, (sampleProduct (some 250000) none).effectiveDate = some d ∧
        0 ≤ dateNaive d - dateNaive 100000 ∧
        dateNaive d - dateNaive 100000 ≤ EXPIRING_SOON_DAYS) :=
  ⟨(is_expiring_soon_overlaps_use_today (sampleProduct (some 150000) none)
      100000).1 150000 rfl (by decide) (by decide),
   (is_expiring_soon_overlaps_use_today (sampleProduct (some 250000) none)
      100000).2⟩

/-- C5: products coming out of the validating constructor or out of the
update orchestrator satisfy both invariants (non-blank name; outcome only
with Finished status); violating inputs are rejected with NameEmpty or
OutcomeRequiresFinishedStatus, and in the update use case these rejections
happen before any collaborator call (empty effect trace). -/
theorem product_invariants_enforced :
    (∀ props freshId now p, Product.new props freshId now = .ok p →
      isBlank p.name = false ∧ (p.outcome.isSome → p.status = .Finished)) ∧
    (∀ props freshId now, isBlank props.name = true →
      Product.new props freshId now = .error .NameEmpty) ∧
    (∀ props freshId now, isBlank props.name = false →
      props.outcome.isSome → props.status ≠ .Finished →
      Product.new props freshId now = .error .OutcomeRequiresFinishedStatus) ∧
    (∀ params g s shop fid now p,
      (UpdateProductUseCaseImpl.execute params g s shop fid now).fst = .ok p →
      isBlank p.name = false ∧ (p.outcome.isSome → p.status = .Finished)) ∧
    (∀ params g s shop fid now, isBlank params.name = true →
      UpdateProductUseCaseImpl.execute params g s shop fid now =
        (.error .NameEmpty, [])) ∧
    (∀ params g s shop fid now, isBlank params.name = false →
      params.outcome.isSome → params.status ≠ .Finished →
      UpdateProductUseCaseImpl.execute params g s shop fid now =
        (.error .OutcomeRequiresFinishedStatus, [])) := by
  refine ⟨?_, ?_, ?_, ?_, ?_, ?_⟩
  · intro props freshId now p hp
    unfold Product.new at hp
    split at hp
    · simp at hp
    next hblank =>
      split at hp
      · simp at hp
      next hout =>
        cases hp
        refine ⟨by simpa using hblank, fun hsome => ?_⟩
        by_contra hfin
        exact hout ⟨hsome, hfin⟩
  · intro props freshId now hblank
    simp [Product.new, hblank]
  · intro props freshId now hblank hsome hfin
    simp [Product.new, hblank, hsome, hfin]
  · intro params g s shop fid now p hp
    unfold UpdateProductUseCaseImpl.execute at hp
    split at hp
    · simp at hp
    next hblank =>
      split at hp
      · simp at hp
      next hout =>
        split at hp
        · simp at hp
        · simp at hp
        next existing =>
          split at hp
          · simp at hp
          · simp only at hp
            cases hp
            refine ⟨by simpa [replacementProduct, Product.from_repository]
              using hblank, fun hsome => ?_⟩
            by_contra hfin
            exact hout ⟨by simpa [replacementProduct,
              Product.from_repository] using hsome,
              by simpa [replacementProduct, Product.from_repository] using hfin⟩
  · intro params g s shop fid now hblank
    simp [UpdateProductUseCaseImpl.execute, hblank]
  · intro params g s shop fid now hblank hsome hfin
    simp [UpdateProductUseCaseImpl.execute, hblank, hsome, hfin]

/-- Valid params transitioning a product into Finished. -/
def updFinishParams : UpdateProductParams :=
  { id := 7, user_id := "user-1", name := "Cheese", status := .Finished,
    location := none, quantity := none, expiry_date := none,
    estimated_expiry_date := none, outcome := some .Used }

/-- Valid params for a non-Finished status. -/
def updOpenParams : UpdateProductParams :=
  { id := 7, user_id := "user-1", name := "Cheese", status := .Opened,
    location := none, quantity := none, expiry_date := none,
    estimated_expiry_date := none, outcome := none }

/-- Existing aggregate in status Opened. -/
def existingOpened : Product :=
  { id := 7, user_id := "user-1", name := "Cheese", status := .Opened,
    location := none, quantity := none, expiry_date := none,
    estimated_expiry_date := none, outcome := none,
    created_at := 10, updated_at := 10 }

/-- Existing aggregate in status Finished. -/
def existingFinished : Product :=
  { existingOpened with status := .Finished }

/-- Blank-name params. -/
def updBlankParams : UpdateProductParams :=
  { updOpenParams with name := "   " }

/-- Outcome-without-Finished params. -/
def updBadOutcomeParams : UpdateProductParams :=
  { updOpenParams with outcome := some .ThrownAway }

/-- Shopping repository that reports no linked item and accepts writes. -/
def shopAnswersNone : ShoppingRepoAnswers :=
  { find_by_product_id := .ok none, save := .ok (), delete_by_product_id := .ok () }

/-- Already linked shopping item for product 7. -/
def linkedItem : ShoppingItem :=
  { id := 42, user_id := "user-1", name := "Cheese", product_id := some 7,
    is_bought := false, created_at := 5, updated_at := 5 }

/-- Shopping repository that reports an existing linked item. -/
def shopAnswersSome : ShoppingRepoAnswers :=
  { shopAnswersNone with find_by_product_id := .ok (some linkedItem) }

/-- Shopping repository whose operations all fail. -/
def shopAnswersFailing : ShoppingRepoAnswers :=
  { find_by_product_id := .error .DatabaseError, save := .error .DatabaseError,
    delete_by_product_id := .error .DatabaseError }

/-- Witness for C5: constructor and update succeed on valid input and reject
blank names and outcome-without-Finished with an empty effect trace. -/
theorem product_invariants_enforced_witness :
    (isBlank (existingOpened.name) = false ∧
      (existingOpened.outcome.isSome → existingOpened.status = .Finished)) ∧
    UpdateProductUseCaseImpl.execute updBlankParams (.ok existingOpened)
      (.ok ()) shopAnswersNone 99 1000 = (.error .NameEmpty, []) ∧
    UpdateProductUseCaseImpl.execute updBadOutcomeParams (.ok existingOpened)
      (.ok ()) shopAnswersNone 99 1000 =
      (.error .OutcomeRequiresFinishedStatus, []) :=
  ⟨product_invariants_enforced.1
      (CreateProductParams.toProps
        { name := "Cheese", status := .Opened, location := none,
          quantity := none, expiry_date := none,
          estimated_expiry_date := none, outcome := none } "user-1")
      7 10 existingOpened rfl,
   product_invariants_enforced.2.2.2.2.1 updBlankParams (.ok existingOpened)
      (.ok ()) shopAnswersNone 99 1000 (by decide),
   product_invariants_enforced.2.2.2.2.2 updBadOutcomeParams
      (.ok existingOpened) (.ok ()) shopAnswersNone 99 1000
      (by decide) (by decide) (by decide)⟩

/-- C3: an update transitioning into Finished from a non-Finished status
returns the replacement product regardless of shopping-list answers; when no
item links to the product it persists exactly one new item named after the
product and linked to its id, and when one already links it persists none. -/
theorem update_to_finished_syncs_shopping_list
    (params : UpdateProductParams) (existing : Product)
    (shop : ShoppingRepoAnswers) (freshItemId : Uuid) (now : DateTime)
    (hname : isBlank params.name = false)
    (hold : existing.status ≠ .Finished)
    (hnew : params.status = .Finished) :
    (UpdateProductUseCaseImpl.execute params (.ok existing) (.ok ()) shop
        freshItemId now).fst = .ok (replacementProduct params existing now) ∧
    (shop.find_by_product_id = .ok none →
      (UpdateProductUseCaseImpl.execute params (.ok existing) (.ok ()) shop
          freshItemId now).snd.filter Effect.isShoppingSave =
        [.shopping_save
            { id := freshItemId, user_id := params.user_id,
              name := params.name, product_id := some existing.id,
              is_bought := false, created_at := now, updated_at := now }]) ∧
    (∀ it, shop.find_by_product_id = .ok (some it) →
      (UpdateProductUseCaseImpl.execute params (.ok existing) (.ok ()) shop
          freshItemId now).snd.filter Effect.isShoppingSave = []) := by
  have hout : ¬ (params.outcome.isSome = true ∧ params.status ≠ .Finished) := by
    simp [hnew]
  refine ⟨?_, ?_, ?_⟩
  · simp [UpdateProductUseCaseImpl.execute, hname, hout]
  · intro hfind
    simp [UpdateProductUseCaseImpl.execute, hname, hout, hnew, hold, hfind,
      ShoppingItem.new, Effect.isShoppingSave]
  · intro it hfind
    simp [UpdateProductUseCaseImpl.execute, hname, hout, hnew, hold, hfind,
      ShoppingItem.new, Effect.isShoppingSave]

/-- Witness for C3 on a concrete Opened-to-Finished transition, both with a
free shopping list and with an already linked item, shopping failures
included. -/
theorem update_to_finished_syncs_shopping_list_witness :
    (UpdateProductUseCaseImpl.execute updFinishParams (.ok existingOpened)
        (.ok ()) shopAnswersFailing 99 1000).fst =
      .ok (replacementProduct updFinishParams existingOpened 1000) ∧
    (UpdateProductUseCaseImpl.execute updFinishParams (.ok existingOpened)
        (.ok ()) shopAnswersNone 99 1000).snd.filter Effect.isShoppingSave =
      [.shopping_save
          { id := 99, user_id := "user-1", name := "Cheese",
            product_id := some 7, is_bought := false, created_at := 1000,
            updated_at := 1000 }] ∧
    (UpdateProductUseCaseImpl.execute updFinishParams (.ok existingOpened)
        (.ok ()) shopAnswersSome 99 1000).snd.filter Effect.isShoppingSave =
      [] :=
  ⟨(update_to_finished_syncs_shopping_list updFinishParams existingOpened
      shopAnswersFailing 99 1000 (by decide) (by decide) rfl).1,
   (update_to_finished_syncs_shopping_list updFinishParams existingOpened
      shopAnswersNone 99 1000 (by decide) (by decide) rfl).2.1 rfl,
   (update_to_finished_syncs_shopping_list updFinishParams existingOpened
      shopAnswersSome 99 1000 (by decide) (by decide) rfl).2.2
      linkedItem rfl⟩

/-- C4: an update leaving Finished invokes the linked-item deletion and
swallows its failure, returning the replacement product; an update keeping
Finished performs no shopping-list call at all. -/
theorem update_out_of_finished_frame
    (params : UpdateProductParams) (existing : Product)
    (shop : ShoppingRepoAnswers) (freshItemId : Uuid) (now : DateTime)
    (hname : isBlank params.name = false) :
    (existing.status = .Finished → params.status ≠ .Finished →
      params.outcome = none →
      (UpdateProductUseCaseImpl.execute params (.ok existing) (.ok ()) shop
          freshItemId now).fst = .ok (replacementProduct params existing now) ∧
      (UpdateProductUseCaseImpl.execute params (.ok existing) (.ok ()) shop
          freshItemId now).snd.filter Effect.isShopping =
        [.shopping_delete_by_product_id existing.id params.user_id]) ∧
    (existing.status = .Finished → params.status = .Finished →
      (UpdateProductUseCaseImpl.execute params (.ok existing) (.ok ()) shop
          freshItemId now).snd.filter Effect.isShopping = []) := by
  constructor
  · intro hold hnew houtnone
    have hout : ¬ (params.outcome.isSome = true ∧ params.status ≠ .Finished) := by
      simp [houtnone]
    constructor
    · simp [UpdateProductUseCaseImpl.execute, hname, hout, houtnone]
    · simp [UpdateProductUseCaseImpl.execute, hname, hout, houtnone, hold,
        hnew, Effect.isShopping]
  · intro hold hnew
    have hout : ¬ (params.outcome.isSome = true ∧ params.status ≠ .Finished) := by
      simp [hnew]
    simp [UpdateProductUseCaseImpl.execute, hname, hout, hold, hnew,
      Effect.isShopping]

/-- Witness for C4: Finished-to-Opened invokes the deletion even when it
fails and still returns the update; Finished-to-Finished leaves the
shopping-item store untouched. -/
theorem update_out_of_finished_frame_witness :
    ((UpdateProductUseCaseImpl.execute updOpenParams (.ok existingFinished)
        (.ok ()) shopAnswersFailing 99 1000).fst =
      .ok (replacementProduct updOpenParams existingFinished 1000) ∧
     (UpdateProductUseCaseImpl.execute updOpenParams (.ok existingFinished)
        (.ok ()) shopAnswersFailing 99 1000).snd.filter Effect.isShopping =
      [.shopping_delete_by_product_id 7 "user-1"]) ∧
    (UpdateProductUseCaseImpl.execute updFinishParams (.ok existingFinished)
        (.ok ()) shopAnswersNone 99 1000).snd.filter Effect.isShopping = [] :=
  ⟨(update_out_of_finished_frame updOpenParams existingFinished
      shopAnswersFailing 99 1000 (by decide)).1 rfl (by decide) rfl,
   (update_out_of_finished_frame updFinishParams existingFinished
      shopAnswersNone 99 1000 (by decide)).2 rfl rfl⟩

/-- Create params for a product without an expiry date. -/
def createParamsNoExpiry : CreateProductParams :=
  { name := "Milk", status := .New, location := none, quantity := none,
    expiry_date := none, estimated_expiry_date := none, outcome := none }

/-- Create params for a product with an explicit expiry date. -/
def createParamsWithExpiry : CreateProductParams :=
  { createParamsNoExpiry with expiry_date := some 999999 }

/-- Estimator answer carrying a date. -/
def estYieldsDate : ExpiryEstimation := { date := some 1000000, confidence := .High }

/-- C9 counterexample: creating a product without an expiry date invokes the
expiry estimator, saves the product twice, and returns a product whose
estimated_expiry_date and updated_at differ from the one constructed —
refuting that the Create orchestrator never calls the estimator, writes at
most once and returns the product exactly as constructed. -/
theorem create_invokes_estimator_counterexample :
    ((CreateProductUseCaseImpl.execute createParamsNoExpiry "user-1" (.ok ())
        (.ok ()) estYieldsDate 1 0 500).snd.filter
      Effect.isEstimatorCall).length = 1 ∧
    ((CreateProductUseCaseImpl.execute createParamsNoExpiry "user-1" (.ok ())
        (.ok ()) estYieldsDate 1 0 500).snd.filter
      Effect.isProductSave).length = 2 ∧
    (CreateProductUseCaseImpl.execute createParamsNoExpiry "user-1" (.ok ())
        (.ok ()) estYieldsDate 1 0 500).fst =
      .ok (estApplied (sampleProduct none none) 1000000 500) ∧
    Product.new (createParamsNoExpiry.toProps "user-1") 1 0 =
      .ok (sampleProduct none none) ∧
    (sampleProduct none none).estimated_expiry_date = none ∧
    (estApplied (sampleProduct none none) 1000000 500).estimated_expiry_date =
      some 1000000 :=
  ⟨rfl, rfl, rfl, rfl, rfl, rfl⟩

/-- C9 as amended: the Create orchestrator validates exactly as the
constructor does and rejects with no write; with an expiry date present it
never calls the estimator, writes once, and returns the product as
constructed; with no expiry date it calls the estimator exactly once and, if
a date is estimated, persists a second time with estimated_expiry_date and
updated_at changed, returning that updated product. -/
theorem create_execute_characterization
    (params : CreateProductParams) (user_id : UserId)
    (save2 : Except RepositoryError Unit) (est : ExpiryEstimation)
    (freshId : Uuid) (now now2 : DateTime) :
    (∀ e, Product.new (params.toProps user_id) freshId now = .error e →
      CreateProductUseCaseImpl.execute params user_id (.ok ()) save2 est
        freshId now now2 = (.error e, [])) ∧
    (∀ p0, Product.new (params.toProps user_id) freshId now = .ok p0 →
      params.expiry_date.isSome →
      CreateProductUseCaseImpl.execute params user_id (.ok ()) save2 est
        freshId now now2 = (.ok p0, [.product_save p0])) ∧
    (∀ p0, Product.new (params.toProps user_id) freshId now = .ok p0 →
      params.expiry_date = none → est.date = none →
      CreateProductUseCaseImpl.execute params user_id (.ok ()) save2 est
        freshId now now2 =
        (.ok p0,
          [.product_save p0,
           .estimator_call p0.name p0.status.toStr
             (p0.location.map ProductLocation.toStr)])) ∧
    (∀ p0 d, Product.new (params.toProps user_id) freshId now = .ok p0 →
      params.expiry_date = none → est.date = some d → save2 = .ok () →
      CreateProductUseCaseImpl.execute params user_id (.ok ()) save2 est
        freshId now now2 =
        (.ok (estApplied p0 d now2),
          [.product_save p0,
           .estimator_call p0.name p0.status.toStr
             (p0.location.map ProductLocation.toStr),
           .product_save (estApplied p0 d now2)])) := by
  have hfield : ∀ p0, Product.new (params.toProps user_id) freshId now = .ok p0 →
      p0.expiry_date = params.expiry_date := by
    intro p0 hp0
    unfold Product.new CreateProductParams.toProps at hp0
    split at hp0
    · simp at hp0
    · split at hp0
      · simp at hp0
      · cases hp0; rfl
  refine ⟨?_, ?_, ?_, ?_⟩
  · intro e he
    simp [CreateProductUseCaseImpl.execute, he]
  · intro p0 hp0 hexp
    have hpe := hfield p0 hp0
    have : p0.expiry_date.isNone = false := by
      rw [hpe]
      simp only [Option.isNone_eq_false_iff]
      exact hexp
    simp [CreateProductUseCaseImpl.execute, hp0, this]
  · intro p0 hp0 hexp hest
    have hpe := hfield p0 hp0
    have : p0.expiry_date.isNone = true := by rw [hpe, hexp]; rfl
    simp [CreateProductUseCaseImpl.execute, hp0, this, hest]
  · intro p0 d hp0 hexp hest hsave2
    have hpe := hfield p0 hp0
    have : p0.expiry_date.isNone = true := by rw [hpe, hexp]; rfl
    simp [CreateProductUseCaseImpl.execute, hp0, this, hest, hsave2]

/-- Witness for the amended C9: with an expiry date the estimator is skipped
and one write happens; without one the estimator answer is applied and a
second write happens. -/
theorem create_execute_characterization_witness :
    CreateProductUseCaseImpl.execute createParamsWithExpiry "user-1" (.ok ())
      (.ok ()) estYieldsDate 1 0 500 =
      (.ok (sampleProduct (some 999999) none),
        [.product_save (sampleProduct (some 999999) none)]) ∧
    CreateProductUseCaseImpl.execute createParamsNoExpiry "user-1" (.ok ())
      (.ok ()) estYieldsDate 1 0 500 =
      (.ok (estApplied (sampleProduct none none) 1000000 500),
        [.product_save (sampleProduct none none),
         .estimator_call "Milk" "new" none,
         .product_save (estApplied (sampleProduct none none) 1000000 500)]) :=
  ⟨(create_execute_characterization createParamsWithExpiry "user-1" (.ok ())
      estYieldsDate 1 0 500).2.1 (sampleProduct (some 999999) none) rfl rfl,
   (create_execute_characterization createParamsNoExpiry "user-1" (.ok ())
      estYieldsDate 1 0 500).2.2.2 (sampleProduct none none) 1000000
      rfl rfl rfl rfl⟩

/-- Helper: the urgency comparator is transitive. -/
theorem urgencyLe_trans (now : DateTime) :
    ∀ a b c, urgencyLe now a b = true → urgencyLe now b c = true →
      urgencyLe now a c = true := by
  intro a b c hab hbc
  simp only [urgencyLe, decide_eq_true_eq] at hab hbc ⊢
  omega

/-- Helper: the urgency comparator is total. -/
theorem urgencyLe_total (now : DateTime) :
    ∀ a b, (urgencyLe now a b || urgencyLe now b a) = true := by
  intro a b
  simp only [urgencyLe, Bool.or_eq_true, decide_eq_true_eq]
  omega

/-- C6: when some fetched active product survives the expiry filter, the list
handed to the external generator is exactly the stable urgency sort of the
non-expired products: it is a permutation of the non-expired fetched
products, WouldntTrust never appears, adjacent elements are in ascending
urgency rank (UseToday before UseSoon before Ok), and for every rank the
subsequence of that rank is exactly the repository-order subsequence (the
sort is stable, with no further tie-break). -/
theorem generate_hands_sorted_usable_products (user_id : UserId) (limit : Nat)
    (products : List Product)
    (generator : List Product → Nat → Except SuggestionError (List Suggestion))
    (now : DateTime)
    (husable : usableOf products now ≠ []) :
    (GenerateSuggestionsUseCaseImpl.execute user_id limit (.ok products)
        generator now).snd =
      [.product_get_active user_id,
       .generator_call (handedOf products now) limit] ∧
    (handedOf products now).Perm (usableOf products now) ∧
    (∀ p, p ∈ handedOf products now →
      p ∈ products ∧ is_expired p now = false) ∧
    (∀ p, p ∈ handedOf products now →
      get_urgency_level p now ≠ .WouldntTrust) ∧
    (handedOf products now).Pairwise (fun a b =>
      urgency_order (get_urgency_level a now) ≤
        urgency_order (get_urgency_level b now)) ∧
    (∀ k : Nat,
      (handedOf products now).filter
        (fun p => decide (urgency_order (get_urgency_level p now) = k)) =
      (usableOf products now).filter
        (fun p => decide (urgency_order (get_urgency_level p now) = k))) := by
  have hperm : (handedOf products now).Perm (usableOf products now) :=
    List.mergeSort_perm (usableOf products now) (urgencyLe now)
  have hmem : ∀ p, p ∈ handedOf products now →
      p ∈ products ∧ is_expired p now = false := by
    intro p hp
    have hpu : p ∈ usableOf products now := hperm.mem_iff.mp hp
    have := List.mem_filter.mp hpu
    simpa [usableOf] using this
  refine ⟨?_, hperm, hmem, ?_, ?_, ?_⟩
  · have hne : (usableOf products now).isEmpty = false := by
      simpa [List.isEmpty_iff] using husable
    cases hg : generator ((usableOf products now).mergeSort (urgencyLe now))
        limit with
    | error e =>
      simp [GenerateSuggestionsUseCaseImpl.execute, hne, handedOf, hg]
    | ok s =>
      simp [GenerateSuggestionsUseCaseImpl.execute, hne, handedOf, hg]
  · intro p hp
    exact urgency_ne_wouldnttrust_of_not_expired p now (hmem p hp).2
  · have := @List.sorted_mergeSort Product (urgencyLe now)
      (urgencyLe_trans now) (urgencyLe_total now) (usableOf products now)
    refine List.Pairwise.imp ?_ this
    intro a b hab
    simpa [urgencyLe] using hab
  · intro k
    have hsubl : ((usableOf products now).filter
        (fun p => decide (urgency_order (get_urgency_level p now) = k))).Sublist
        (usableOf products now) := List.filter_sublist _
    have hpw : ((usableOf products now).filter
        (fun p => decide (urgency_order (get_urgency_level p now) = k))).Pairwise
        (fun a b => urgencyLe now a b = true) := by
      apply List.pairwise_of_forall_mem_list
      intro a ha b hb
      have hak := (List.mem_filter.mp ha).2
      have hbk := (List.mem_filter.mp hb).2
      simp only [decide_eq_true_eq] at hak hbk
      simp only [urgencyLe, decide_eq_true_eq]
      omega
    have hsub2 : ((usableOf products now).filter
        (fun p => decide (urgency_order (get_urgency_level p now) = k))).Sublist
        (handedOf products now) :=
      List.sublist_mergeSort (urgencyLe_trans now) (urgencyLe_total now)
        hpw hsubl
    have hidem : List.filter
        (fun p => decide (urgency_order (get_urgency_level p now) = k))
        ((usableOf products now).filter
          (fun p => decide (urgency_order (get_urgency_level p now) = k))) =
        (usableOf products now).filter
          (fun p => decide (urgency_order (get_urgency_level p now) = k)) :=
      List.filter_eq_self.mpr (fun a ha => (List.mem_filter.mp ha).2)
    have hfsub : ((usableOf products now).filter
        (fun p => decide (urgency_order (get_urgency_level p now) = k))).Sublist
        ((handedOf products now).filter
          (fun p => decide (urgency_order (get_urgency_level p now) = k))) := by
      have h := List.Sublist.filter
        (fun p => decide (urgency_order (get_urgency_level p now) = k)) hsub2
      rwa [hidem] at h
    have hlen : ((handedOf products now).filter
        (fun p => decide (urgency_order (get_urgency_level p now) = k))).length =
        ((usableOf products now).filter
          (fun p => decide (urgency_order (get_urgency_level p now) = k))).length :=
      (List.Perm.filter _ hperm).length_eq
    exact (List.Sublist.eq_of_length hfsub hlen.symm).symm

/-- Expired product for the generate witnesses (expiry before now=100000). -/
def expiredYogurt : Product :=
  { sampleProduct (some 50000) none with id := 2, name := "Old yogurt" }

/-- Product expiring in one day for the generate witnesses. -/
def freshMilk : Product :=
  { sampleProduct (some 250000) none with id := 3, name := "Fresh milk" }

/-- Witness for C6: of an expired product and one expiring soon, only the
non-expired one is handed over, and all structural conclusions instantiate. -/
theorem generate_hands_sorted_usable_products_witness :
    (GenerateSuggestionsUseCaseImpl.execute "user-1" 5
        (.ok [expiredYogurt, freshMilk]) (fun _ _ => .ok []) 100000).snd =
      [.product_get_active "user-1",
       .generator_call (handedOf [expiredYogurt, freshMilk] 100000) 5] ∧
    (handedOf [expiredYogurt, freshMilk] 100000).Perm
      (usableOf [expiredYogurt, freshMilk] 100000) ∧
    (∀ p, p ∈ handedOf [expiredYogurt, freshMilk] 100000 →
      p ∈ [expiredYogurt, freshMilk] ∧ is_expired p 100000 = false) ∧
    (∀ p, p ∈ handedOf [expiredYogurt, freshMilk] 100000 →
      get_urgency_level p 100000 ≠ .WouldntTrust) ∧
    (handedOf [expiredYogurt, freshMilk] 100000).Pairwise (fun a b =>
      urgency_order (get_urgency_level a 100000) ≤
        urgency_order (get_urgency_level b 100000)) ∧
    (∀ k : Nat,
      (handedOf [expiredYogurt, freshMilk] 100000).filter
        (fun p => decide (urgency_order (get_urgency_level p 100000) = k)) =
      (usableOf [expiredYogurt, freshMilk] 100000).filter
        (fun p => decide (urgency_order (get_urgency_level p 100000) = k))) :=
  generate_hands_sorted_usable_products "user-1" 5 [expiredYogurt, freshMilk]
    (fun _ _ => .ok []) 100000 (by decide)

/-- C7: with no active product surviving the expiry filter (none fetched, or
all expired), generate returns success with the empty list and the external
generator is never invoked. -/
theorem generate_empty_usable_short_circuits (user_id : UserId) (limit : Nat)
    (products : List Product)
    (generator : List Product → Nat → Except SuggestionError (List Suggestion))
    (now : DateTime)
    (h : usableOf products now = []) :
    GenerateSuggestionsUseCaseImpl.execute user_id limit (.ok products)
      generator now = (.ok [], [.product_get_active user_id]) ∧
    (GenerateSuggestionsUseCaseImpl.execute user_id limit (.ok products)
      generator now).snd.filter Effect.isGeneratorCall = [] := by
  have hne : (usableOf products now).isEmpty = true := by simp [h]
  constructor
  · simp [GenerateSuggestionsUseCaseImpl.execute, hne]
  · simp [GenerateSuggestionsUseCaseImpl.execute, hne, Effect.isGeneratorCall]

/-- Witness for C7: zero active products and an all-expired list both return
an empty result without a generator call. -/
theorem generate_empty_usable_short_circuits_witness :
    GenerateSuggestionsUseCaseImpl.execute "user-1" 5 (.ok [])
      (fun _ _ => .ok []) 100000 = (.ok [], [.product_get_active "user-1"]) ∧
    GenerateSuggestionsUseCaseImpl.execute "user-1" 5 (.ok [expiredYogurt])
      (fun _ _ => .ok []) 100000 = (.ok [], [.product_get_active "user-1"]) :=
  ⟨(generate_empty_usable_short_circuits "user-1" 5 [] (fun _ _ => .ok [])
      100000 rfl).1,
   (generate_empty_usable_short_circuits "user-1" 5 [expiredYogurt]
      (fun _ _ => .ok []) 100000 (by decide)).1⟩

/-- C8: provided the bound generator (as the production OpenAI implementation
does, and as the §6 interface declares) fails only with GenerationFailed,
every error coming out of the generate use case is GenerationFailed — fetch
failures of any repository kind are mapped to it, and the error of the generator itself
is propagated unchanged. -/
theorem generate_errors_collapse (user_id : UserId) (limit : Nat)
    (fetch : Except RepositoryError (List Product))
    (generator : List Product → Nat → Except SuggestionError (List Suggestion))
    (now : DateTime)
    (hg : ∀ ps lim e, generator ps lim = .error e → e = .GenerationFailed) :
    ∀ e, (GenerateSuggestionsUseCaseImpl.execute user_id limit fetch
      generator now).fst = .error e → e = .GenerationFailed := by
  intro e he
  unfold GenerateSuggestionsUseCaseImpl.execute at he
  split at he
  · cases he
    rfl
  · simp only at he
    split at he
    · simp at he
    · split at he
      next heq =>
        simp only at he
        cases he
        exact hg _ _ _ heq
      · simp at he

/-- Witness for C8: a failing fetch surfaces as GenerationFailed under a
generator that only fails with GenerationFailed. -/
theorem generate_errors_collapse_witness :
    (GenerateSuggestionsUseCaseImpl.execute "user-1" 5 (.error .Persistence)
      (fun _ _ => .ok []) 100000).fst = .error .GenerationFailed := by
  have h := generate_errors_collapse "user-1" 5 (.error .Persistence)
    (fun _ _ => .ok []) 100000
    (by intro ps lim e he; exact absurd he (by simp))
  have h2 : SuggestionError.GenerationFailed = .GenerationFailed :=
    h .GenerationFailed rfl
  exact h2 ▸ rfl

/-- Product owned by user alice, id 1. -/
def aliceMilk : Product :=
  { sampleProduct none none with user_id := "alice" }

/-- C1 evaluation: the delete orchestrator goes through the owner-scoped
lookup and answers NotFound to a cross-owner caller, but the get-by-id
orchestrator as implemented queries by id alone, so a cross-owner lookup
returns the product of the other user instead of NotFound — the claimed
owner-scoping fails for GetProductById. -/
theorem get_by_id_cross_owner_divergence :
    GetProductByIdUseCaseImpl.execute [aliceMilk] 1 "bob" = .ok aliceMilk ∧
    GetProductByIdUseCaseImpl.execute [aliceMilk] 1 "bob" ≠
      .error .NotFound ∧
    DeleteProductUseCaseImpl.execute [aliceMilk] 1 "bob" (.ok ()) =
      .error .NotFound ∧
    GetProductByIdUseCaseImpl.execute [] 1 "bob" = .error .NotFound ∧
    DeleteProductUseCaseImpl.execute [] 1 "bob" (.ok ()) =
      .error .NotFound :=
  ⟨rfl, by intro h; exact Except.noConfusion h, rfl, rfl, rfl⟩

end Foodie
